import Mathlib

/-!
Shallow embedding of `src/midiola.cpp` (riban-bw/jackmidiola), the JACK-MIDI to
OLA-DMX bridge.  Machine integers are modelled as `Nat` with `% 2^w` applied
exactly where the C code narrows a wider intermediate into a `uint8_t` or
`uint16_t`.  The mutable globals (`g_universe`, `g_bufferIndex`, `g_nrpnParam`,
`g_nrpnVal`, `g_slot`, `g_dmxBuffer`) become fields of an explicit `State`
record threaded through the handlers; each call to
`ola::client::StreamingClient::SendDmx` is logged in an `emissions` list.
-/

namespace Midiola

/-- Models `ola::DmxBuffer::SetChannel` on the store `g_dmxBuffer[32]`:
point update of the byte at (buffer index `b`, slot `s`).  The `DmxBuffer`
class is an external OLA collaborator; the spec's Universe Buffer Store
describes it as plain get-slot/set-slot on 512-byte frames. -/
def setSlot (f : Nat → Nat → Nat) (b s v : Nat) : Nat → Nat → Nat :=
  fun b' s' => if b' = b ∧ s' = s then v else f b' s'

/-- Models `ola::DmxBuffer::Blackout` on buffer index `b`: zero-fill that
frame, leaving the other frames untouched. -/
def blackout (f : Nat → Nat → Nat) (b : Nat) : Nat → Nat → Nat :=
  fun b' s' => if b' = b then 0 else f b' s'

/-- The mutable engine state: the global variables of `midiola.cpp` together
with a log of `SendDmx` calls.  `univ` models `g_universe` (the C identifier
is a Lean keyword); an emission records the universe number passed to
`SendDmx` and a snapshot of the transmitted frame. -/
structure State where
  universeBase : Nat
  univ : Nat
  bufferIndex : Nat
  nrpnParam : Nat
  nrpnVal : Nat
  slot : Nat
  buffers : Nat → Nat → Nat
  emissions : List (Nat × (Nat → Nat))

/-- Process state right after the globals are initialised with first universe
`ub` (`g_universe = g_universeBase = ub`, both `uint8_t`; `-u` sets the two
together, default 1): parameter 0, value 0, slot 0, buffer index 0, all
frames zero, nothing emitted yet. -/
def initState (ub : Nat) : State :=
  { universeBase := ub, univ := ub, bufferIndex := 0, nrpnParam := 0,
    nrpnVal := 0, slot := 0, buffers := fun _ _ => 0, emissions := [] }

/-- Embeds `cc7` (midiola.cpp lines 216-232): recompute universe and buffer
index from the channel, write `val << 1` (a `uint8_t` shift) to slot `cc`,
and send the frame. -/
def cc7 (channel cc val : Nat) (st : State) : State :=
  let uni := (channel + st.universeBase) % 256
  let bufferIndex := channel
  let v := (val * 2) % 256
  let buffers := setSlot st.buffers bufferIndex cc v
  { st with univ := uni, bufferIndex := bufferIndex, buffers := buffers,
            emissions := st.emissions ++ [(uni, buffers bufferIndex)] }

/-- Embeds `cc14` (midiola.cpp lines 234-267).  `uint8_t base = channel * 32`
narrows the `int` product to a byte, hence the `% 256`.  The frame written and
sent is `g_dmxBuffer[g_bufferIndex]` with the universe `g_universe`, neither
of which this handler recomputes. -/
def cc14 (channel cc val : Nat) (st : State) : State :=
  if 65 < cc then st
  else
    let offset := cc % 32
    let base := (channel * 32) % 256
    let slot := offset + base
    let curVal := st.buffers st.bufferIndex slot
    if 31 < cc then
      let newVal := if 63 < val then curVal ||| 1 else curVal &&& 254
      let buffers := setSlot st.buffers st.bufferIndex slot newVal
      { st with slot := slot, buffers := buffers,
                emissions := st.emissions ++ [(st.univ, buffers st.bufferIndex)] }
    else
      let newVal := ((curVal &&& 1) ||| (val * 2)) % 256
      { st with slot := slot, buffers := setSlot st.buffers st.bufferIndex slot newVal }

/-- Embeds `nrpnCC7` (midiola.cpp lines 269-324).  CC numbers follow the
`MIDI_COMMAND` enum: 98 NRPN_LSB, 99 NRPN_MSB, 6 DATA_MSB, 96 INC, 97 DEC;
any other controller number falls through the `switch` unchanged. -/
def nrpnCC7 (channel cc val : Nat) (st : State) : State :=
  if cc = 98 then
    let p := ((st.nrpnParam &&& 0x3f80) ||| val) % 65536
    { st with nrpnParam := p, slot := p % 512, bufferIndex := p / 512,
              univ := (p / 512 + st.universeBase) % 256 }
  else if cc = 99 then
    let p := ((st.nrpnParam &&& 0x7f) ||| (val <<< 7)) % 65536
    { st with nrpnParam := p, slot := p % 512, bufferIndex := p / 512,
              univ := (p / 512 + st.universeBase) % 256 }
  else if cc = 6 then
    let v := (val * 2) % 256
    let buffers := setSlot st.buffers st.bufferIndex st.slot v
    { st with nrpnVal := v, buffers := buffers,
              emissions := st.emissions ++ [(st.univ, buffers st.bufferIndex)] }
  else if cc = 96 then
    if st.nrpnVal < 255 then
      let v := st.nrpnVal + 1
      let buffers := setSlot st.buffers st.bufferIndex st.slot v
      { st with nrpnVal := v, buffers := buffers,
                emissions := st.emissions ++ [(st.univ, buffers st.bufferIndex)] }
    else st
  else if cc = 97 then
    let slot := st.nrpnParam % 512
    if 0 < st.nrpnVal then
      let v := st.nrpnVal - 1
      let buffers := setSlot st.buffers st.bufferIndex slot v
      { st with slot := slot, nrpnVal := v, buffers := buffers,
                emissions := st.emissions ++ [(st.univ, buffers st.bufferIndex)] }
    else
      { st with slot := slot }
  else st

/-- Embeds `nrpnCC14` (midiola.cpp lines 326-386): same parameter handling as
`nrpnCC7`; 6 DATA_MSB only buffers `(g_nrpnVal & 0x01) | (val << 1)`;
38 DATA_LSB folds the value-over-63 flag into bit 0, writes and sends;
96 INC / 97 DEC saturate, writing and sending only on change. -/
def nrpnCC14 (channel cc val : Nat) (st : State) : State :=
  if cc = 98 then
    let p := ((st.nrpnParam &&& 0x3f80) ||| val) % 65536
    { st with nrpnParam := p, slot := p % 512, bufferIndex := p / 512,
              univ := (p / 512 + st.universeBase) % 256 }
  else if cc = 99 then
    let p := ((st.nrpnParam &&& 0x7f) ||| (val <<< 7)) % 65536
    { st with nrpnParam := p, slot := p % 512, bufferIndex := p / 512,
              univ := (p / 512 + st.universeBase) % 256 }
  else if cc = 6 then
    { st with nrpnVal := ((st.nrpnVal &&& 1) ||| (val * 2)) % 256 }
  else if cc = 38 then
    let v := if 63 < val then st.nrpnVal ||| 1 else st.nrpnVal &&& 254
    let buffers := setSlot st.buffers st.bufferIndex st.slot v
    { st with nrpnVal := v, buffers := buffers,
              emissions := st.emissions ++ [(st.univ, buffers st.bufferIndex)] }
  else if cc = 96 then
    if st.nrpnVal < 255 then
      let v := st.nrpnVal + 1
      let buffers := setSlot st.buffers st.bufferIndex st.slot v
      { st with nrpnVal := v, buffers := buffers,
                emissions := st.emissions ++ [(st.univ, buffers st.bufferIndex)] }
    else st
  else if cc = 97 then
    if 0 < st.nrpnVal then
      let v := st.nrpnVal - 1
      let buffers := setSlot st.buffers st.bufferIndex st.slot v
      { st with nrpnVal := v, buffers := buffers,
                emissions := st.emissions ++ [(st.univ, buffers st.bufferIndex)] }
    else st
  else st

/-- The `MIDI_MODE` enum: the addressing mode chosen once at startup. -/
inductive MidiMode
  | cc7
  | cc14
  | nrpn7
  | nrpn14
deriving DecidableEq

/-- Immutable configuration fixed before the JACK callback runs: the globals
`g_enableCC`, `g_enableNote`, `g_mode` and `g_midiChannels`. -/
structure Config where
  enableCC : Bool
  enableNote : Bool
  mode : MidiMode
  midiChannels : Nat

/-- Models one `-x chan` exclusion in `parseCommandLine` (lines 187-200):
`uint16_t mask = 1 << (chan - 1); mask = ~mask; g_midiChannels &= mask;`
with the 16-bit complement written as `xor` with `0xffff`. -/
def excludeChannel (mask chan : Nat) : Nat :=
  mask &&& (0xffff ^^^ (1 <<< (chan - 1)))

/-- Embeds the per-event body of `onJackProcess` (midiola.cpp lines 397-428):
command = high nibble, channel = low nibble; a Control-Change is dispatched by
mode and a Note-On goes to `cc7`, in both cases only when the matching listen
flag is up and the channel bit is set in `g_midiChannels`. -/
def processEvent (cfg : Config) (status d1 d2 : Nat) (st : State) : State :=
  let cmd := status &&& 0xf0
  if cfg.enableCC ∧ cmd = 0xb0 then
    let chan := status &&& 0x0f
    if (1 <<< chan) &&& cfg.midiChannels = 0 then st
    else
      match cfg.mode with
      | MidiMode.cc7 => cc7 chan d1 d2 st
      | MidiMode.cc14 => cc14 chan d1 d2 st
      | MidiMode.nrpn7 => nrpnCC7 chan d1 d2 st
      | MidiMode.nrpn14 => nrpnCC14 chan d1 d2 st
  else if cfg.enableNote ∧ cmd = 0x90 then
    let chan := status &&& 0x0f
    if (1 <<< chan) &&& cfg.midiChannels = 0 then st
    else cc7 chan d1 d2 st
  else st

/-- Resolver selected by the mode `switch` in `onJackProcess`. -/
def modeResolver : MidiMode → Nat → Nat → Nat → State → State
  | MidiMode.cc7 => cc7
  | MidiMode.cc14 => cc14
  | MidiMode.nrpn7 => nrpnCC7
  | MidiMode.nrpn14 => nrpnCC14

/-- One iteration of the startup loop in `main` (midiola.cpp lines 469-472):
`g_dmxBuffer[g_bufferIndex].Blackout(); SendDmx(g_universe, g_dmxBuffer[g_bufferIndex]);`
The loop counter `universe` is not read by the body. -/
def startupStep (st : State) : State :=
  let buffers := blackout st.buffers st.bufferIndex
  { st with buffers := buffers,
            emissions := st.emissions ++ [(st.univ, buffers st.bufferIndex)] }

/-- The startup loop repeated `n` times (the code runs it `MAX_MIDI_UNIVERSE = 32`
times). -/
def startupLoop : Nat → State → State
  | 0, st => st
  | n + 1, st => startupLoop n (startupStep st)

/-- Process startup with first universe `ub`: the 32-iteration buffer
initialisation loop run on the freshly initialised globals. -/
def startup (ub : Nat) : State :=
  startupLoop 32 (initState ub)

/-- The NRPN addressing invariant: `g_slot`, `g_bufferIndex` and `g_universe`
agree with the values recomputed from `g_nrpnParam`. -/
def nrpnInv (st : State) : Prop :=
  st.slot = st.nrpnParam % 512 ∧ st.bufferIndex = st.nrpnParam / 512 ∧
    st.univ = (st.bufferIndex + st.universeBase) % 256

/-- Well-formedness of the NRPN addressing fields after a parameter update:
the parameter fits 14 bits, slot/buffer index/universe are its decomposition,
and both indices are within the 32 x 512 store. -/
def goodAddr (st : State) (ub : Nat) : Prop :=
  st.nrpnParam ≤ 16383 ∧ st.slot = st.nrpnParam % 512 ∧
    st.bufferIndex = st.nrpnParam / 512 ∧
    st.univ = (st.bufferIndex + ub) % 256 ∧
    (st.bufferIndex + ub < 256 → st.univ = st.bufferIndex + ub) ∧
    st.bufferIndex < 32 ∧ st.slot < 512

lemma or_lt_256 {x y : Nat} (hx : x < 256) (hy : y < 256) : x ||| y < 256 := by
  have e : (2 : Nat) ^ 8 = 256 := by norm_num
  rw [← e] at hx hy ⊢
  exact Nat.or_lt_two_pow hx hy

lemma or_lt_16384 {x y : Nat} (hx : x < 16384) (hy : y < 16384) :
    x ||| y < 16384 := by
  have e : (2 : Nat) ^ 14 = 16384 := by norm_num
  rw [← e] at hx hy ⊢
  exact Nat.or_lt_two_pow hx hy

lemma setSlot_same (f : Nat → Nat → Nat) (b s v : Nat) :
    setSlot f b s v b s = v := by
  simp [setSlot]

lemma setSlot_other_buffer (f : Nat → Nat → Nat) (b s v b' s' : Nat)
    (h : b' ≠ b) : setSlot f b s v b' s' = f b' s' := by
  simp [setSlot, h]

lemma shiftLeft_one_and_eq_zero_iff (m i : Nat) :
    (1 <<< i) &&& m = 0 ↔ m.testBit i = false := by
  rw [Nat.one_shiftLeft]
  constructor
  · intro h
    have h' := congrArg (fun x => x.testBit i) h
    simpa [Nat.testBit_and, Nat.testBit_two_pow_self] using h'
  · intro h
    apply Nat.eq_of_testBit_eq
    intro j
    rcases eq_or_ne i j with rfl | hij
    · simp [Nat.testBit_and, h]
    · simp [Nat.testBit_and, Nat.testBit_two_pow_of_ne hij]

/-- C2: in CC7 mode, a Control-Change on channel `c` (< 16) with controller
`k` (< 128) and value `v` (< 128) writes the byte `2 * v` (at most 254, never
255) to slot `k` of the frame at buffer index `c` and immediately emits that
full frame to universe `c + universeBase` (a byte sum); a Note-On event with
note `k` and velocity `v` on an enabled channel is dispatched to the same
resolver with the same effect. -/
theorem cc7_full_spec (st : State) (cfg : Config) (c k v : Nat)
    (hc : c < 16) (hk : k < 128) (hv : v < 128)
    (hnote : cfg.enableNote = true)
    (hbit : (1 <<< c) &&& cfg.midiChannels ≠ 0) :
    (cc7 c k v st).buffers c k = 2 * v ∧
    2 * v ≤ 254 ∧
    (cc7 c k v st).bufferIndex = c ∧
    (cc7 c k v st).univ = (c + st.universeBase) % 256 ∧
    (c + st.universeBase < 256 → (cc7 c k v st).univ = c + st.universeBase) ∧
    (cc7 c k v st).emissions =
      st.emissions ++ [((c + st.universeBase) % 256, (cc7 c k v st).buffers c)] ∧
    processEvent cfg (0x90 + c) k v st = cc7 c k v st := by
  have hmod : (v * 2) % 256 = 2 * v := by omega
  refine ⟨?_, by omega, rfl, rfl, fun h => by simp [cc7, Nat.mod_eq_of_lt h], ?_, ?_⟩
  · simp [cc7, setSlot_same, hmod]
  · rfl
  · have hcmd : (0x90 + c) &&& 0xf0 = 0x90 := by
      interval_cases c <;> decide
    have hchan : (0x90 + c) &&& 0x0f = c := by
      interval_cases c <;> decide
    simp [processEvent, hcmd, hchan, hnote, hbit]

/-- C2 witness: concrete run of `cc7_full_spec` on channel 3, controller 10,
value 20 from the startup state with universe base 1, using a configuration
that listens for Note-On with all channels enabled. -/
theorem cc7_full_spec_witness :
    (cc7 3 10 20 (initState 1)).buffers 3 10 = 2 * 20 ∧
    2 * 20 ≤ 254 ∧
    (cc7 3 10 20 (initState 1)).bufferIndex = 3 ∧
    (cc7 3 10 20 (initState 1)).univ = (3 + (initState 1).universeBase) % 256 ∧
    (3 + (initState 1).universeBase < 256 →
      (cc7 3 10 20 (initState 1)).univ = 3 + (initState 1).universeBase) ∧
    (cc7 3 10 20 (initState 1)).emissions =
      (initState 1).emissions ++
        [((3 + (initState 1).universeBase) % 256, (cc7 3 10 20 (initState 1)).buffers 3)] ∧
    processEvent ⟨true, true, MidiMode.cc7, 0xffff⟩ (0x90 + 3) 10 20 (initState 1) =
      cc7 3 10 20 (initState 1) :=
  cc7_full_spec (initState 1) ⟨true, true, MidiMode.cc7, 0xffff⟩ 3 10 20
    (by decide) (by decide) (by decide) rfl (by decide)

/-- C3 counterexample: on channel 8 with controller 0, the code computes slot
0 (the byte narrowing in `uint8_t base = channel * 32` wraps 256 to 0), while
the claimed formula `(k mod 32) + c * 32` gives 256. -/
theorem cc14_slot_claim_false :
    (cc14 8 0 0 (initState 1)).slot = 0 ∧ (0 % 32 + 8 * 32 : Nat) = 256 ∧
      (0 : Nat) ≠ 256 := by
  refine ⟨rfl, by norm_num, by norm_num⟩

/-- C3 (amended): in CC14 mode, for channel `c` and controller `k` with
`k` at most 65, the targeted slot is `(k mod 32) + ((c * 32) mod 256)`; the
`mod 256` comes from the byte-typed `base` local and only matters for
channels 8 and above. -/
theorem cc14_slot_spec (st : State) (c k v : Nat) (hk : k ≤ 65) :
    (cc14 c k v st).slot = k % 32 + (c * 32) % 256 := by
  have h65 : ¬ 65 < k := by omega
  by_cases h31 : 31 < k <;> simp [cc14, h65, h31]

/-- C3 witness: `cc14_slot_spec` evaluated at channel 8, controller 0, where
the amended formula yields slot 0. -/
theorem cc14_slot_spec_witness :
    (cc14 8 0 0 (initState 1)).slot = 0 % 32 + (8 * 32) % 256 :=
  cc14_slot_spec (initState 1) 8 0 0 (by decide)

/-- C4: in CC14 mode a controller below 32 (MSB phase) overwrites the target
slot with `(existing bit 0) | (value << 1)` and emits nothing, a controller in
32..65 (LSB phase) sets bit 0 of the target slot exactly when the value
exceeds 63 (clearing it otherwise) and emits once, and a controller above 65
leaves the state untouched; concretely, MSB (controller 5, value 100) then
LSB (controller 37, value 80) on channel 0 leaves slot 5 holding 201 with
only the second message emitting. -/
theorem cc14_phase_spec (st : State) (c k v : Nat) (hv : v < 128) :
    (k < 32 →
      (cc14 c k v st).buffers st.bufferIndex (k % 32 + (c * 32) % 256) =
        (st.buffers st.bufferIndex (k % 32 + (c * 32) % 256) &&& 1) ||| (v * 2) ∧
      (cc14 c k v st).emissions = st.emissions) ∧
    (32 ≤ k → k ≤ 65 →
      (cc14 c k v st).buffers st.bufferIndex (k % 32 + (c * 32) % 256) =
        (if 63 < v then st.buffers st.bufferIndex (k % 32 + (c * 32) % 256) ||| 1
          else st.buffers st.bufferIndex (k % 32 + (c * 32) % 256) &&& 254) ∧
      (cc14 c k v st).emissions.length = st.emissions.length + 1) ∧
    (65 < k → cc14 c k v st = st) ∧
    ((cc14 0 5 100 (initState 1)).emissions = [] ∧
      (cc14 0 37 80 (cc14 0 5 100 (initState 1))).buffers 0 5 = 201 ∧
      (cc14 0 37 80 (cc14 0 5 100 (initState 1))).emissions.length = 1) := by
  refine ⟨fun hk => ?_, fun hk32 hk65 => ?_, fun hk => ?_, rfl, by decide, by decide⟩
  · have h65 : ¬ 65 < k := by omega
    have h31 : ¬ 31 < k := by omega
    have hlt : st.buffers st.bufferIndex (k % 32 + (c * 32) % 256) % 2 |||
        (v * 2) < 256 :=
      or_lt_256 (by omega) (by omega)
    constructor
    · simp [cc14, h65, h31, setSlot_same, Nat.mod_eq_of_lt hlt]
    · simp [cc14, h65, h31]
  · have h65 : ¬ 65 < k := by omega
    have h31 : 31 < k := by omega
    constructor
    · simp [cc14, h65, h31, setSlot_same]
    · simp [cc14, h65, h31]
  · simp [cc14, hk]

/-- C4 witness: `cc14_phase_spec` instantiated on channel 1, controller 40
(LSB phase), value 100, from the startup state; the LSB implication is
discharged at its concrete bounds. -/
theorem cc14_phase_spec_witness :
    (cc14 1 40 100 (initState 1)).buffers (initState 1).bufferIndex
        (40 % 32 + (1 * 32) % 256) =
      (if 63 < 100 then
          (initState 1).buffers (initState 1).bufferIndex (40 % 32 + (1 * 32) % 256) ||| 1
        else
          (initState 1).buffers (initState 1).bufferIndex (40 % 32 + (1 * 32) % 256) &&& 254) ∧
    (cc14 1 40 100 (initState 1)).emissions.length = (initState 1).emissions.length + 1 :=
  (cc14_phase_spec (initState 1) 1 40 100 (by decide)).2.1 (by decide) (by decide)

/-- C5: a CC14 message never changes the current universe, buffer index,
universe base or NRPN session state, touches no frame other than the one at
the current buffer index, and any emission it makes goes to the universe that
was already current; at startup the current universe is the universe base and
the current buffer index is 0. -/
theorem cc14_no_universe_update (st : State) (c k v : Nat) :
    (cc14 c k v st).univ = st.univ ∧
    (cc14 c k v st).bufferIndex = st.bufferIndex ∧
    (cc14 c k v st).universeBase = st.universeBase ∧
    (cc14 c k v st).nrpnParam = st.nrpnParam ∧
    (cc14 c k v st).nrpnVal = st.nrpnVal ∧
    (∀ b s, b ≠ st.bufferIndex → (cc14 c k v st).buffers b s = st.buffers b s) ∧
    ((cc14 c k v st).emissions = st.emissions ∨
      (cc14 c k v st).emissions =
        st.emissions ++ [(st.univ, (cc14 c k v st).buffers st.bufferIndex)]) ∧
    (∀ ub, (initState ub).univ = ub ∧ (initState ub).bufferIndex = 0) := by
  by_cases h65 : 65 < k
  · simp [cc14, h65, initState]
  · by_cases h31 : 31 < k
    · refine ⟨?_, ?_, ?_, ?_, ?_, ?_, Or.inr ?_, fun ub => ⟨rfl, rfl⟩⟩ <;>
        simp [cc14, h65, h31, setSlot_other_buffer]
      intro b s hb
      simp [setSlot, hb]
    · refine ⟨?_, ?_, ?_, ?_, ?_, ?_, Or.inl ?_, fun ub => ⟨rfl, rfl⟩⟩ <;>
        simp [cc14, h65, h31, setSlot_other_buffer]
      intro b s hb
      simp [setSlot, hb]

/-- C5 witness: `cc14_no_universe_update` instantiated on channel 0,
controller 5, value 100 at the startup state, with the frame-preservation
conjunct applied to buffer 1 and the startup conjunct to universe base 7. -/
theorem cc14_no_universe_update_witness :
    (cc14 0 5 100 (initState 1)).univ = (initState 1).univ ∧
    (cc14 0 5 100 (initState 1)).bufferIndex = (initState 1).bufferIndex ∧
    (cc14 0 5 100 (initState 1)).nrpnParam = (initState 1).nrpnParam ∧
    (cc14 0 5 100 (initState 1)).nrpnVal = (initState 1).nrpnVal ∧
    (cc14 0 5 100 (initState 1)).buffers 1 0 = (initState 1).buffers 1 0 ∧
    ((cc14 0 5 100 (initState 1)).emissions = (initState 1).emissions ∨
      (cc14 0 5 100 (initState 1)).emissions =
        (initState 1).emissions ++
          [((initState 1).univ, (cc14 0 5 100 (initState 1)).buffers (initState 1).bufferIndex)]) ∧
    (initState 7).univ = 7 ∧ (initState 7).bufferIndex = 0 := by
  have h := cc14_no_universe_update (initState 1) 0 5 100
  exact ⟨h.1, h.2.1, h.2.2.2.1, h.2.2.2.2.1,
    h.2.2.2.2.2.1 1 0 (by decide), h.2.2.2.2.2.2.1,
    (h.2.2.2.2.2.2.2 7).1, (h.2.2.2.2.2.2.2 7).2⟩

/-- C6 counterexample: in NRPN14 mode, DATA_MSB(50) buffers 100 without any
emission, and a following INC message (controller 96) — not DATA_LSB — writes
and transmits 101, so the buffered DATA_MSB value becomes visible to the
lighting network at a point other than a DATA_LSB message, refuting the
claimed "only point" and "never transmitted until the completing message"
temporal property. -/
theorem nrpn14_lsb_only_visibility_false :
    (nrpnCC14 0 6 50 (initState 1)).emissions = [] ∧
    (nrpnCC14 0 6 50 (initState 1)).nrpnVal = 100 ∧
    (nrpnCC14 0 96 0 (nrpnCC14 0 6 50 (initState 1))).emissions.length = 1 ∧
    ((nrpnCC14 0 96 0 (nrpnCC14 0 6 50 (initState 1))).emissions.map
        (fun e => e.2 0)) = [101] ∧
    (nrpnCC14 0 96 0 (nrpnCC14 0 6 50 (initState 1))).buffers 0 0 = 101 := by
  refine ⟨rfl, rfl, rfl, rfl, rfl⟩

/-- C6 (amended): in NRPN14 mode, DATA_MSB only buffers the pending value as
`(existing bit 0) | (value << 1)` with no frame write and no transmission;
DATA_LSB folds the value-over-63 flag into bit 0, writes the completed value
to the addressed slot and emits — it is the only DATA message that makes the
buffered value visible, but INC and DEC can also write and transmit the
buffered pending value.  Concretely DATA_MSB(50) buffers 100 without
transmission and a following DATA_LSB(70) transmits 101. -/
theorem nrpn14_data_spec (st : State) (c v : Nat) (hv : v < 128) :
    ((nrpnCC14 c 6 v st).nrpnVal = (st.nrpnVal &&& 1) ||| (v * 2) ∧
      (nrpnCC14 c 6 v st).buffers = st.buffers ∧
      (nrpnCC14 c 6 v st).emissions = st.emissions) ∧
    ((nrpnCC14 c 38 v st).nrpnVal =
        (if 63 < v then st.nrpnVal ||| 1 else st.nrpnVal &&& 254) ∧
      (nrpnCC14 c 38 v st).buffers st.bufferIndex st.slot =
        (nrpnCC14 c 38 v st).nrpnVal ∧
      (nrpnCC14 c 38 v st).emissions =
        st.emissions ++ [(st.univ, (nrpnCC14 c 38 v st).buffers st.bufferIndex)]) ∧
    ((nrpnCC14 0 6 50 (initState 1)).nrpnVal = 100 ∧
      (nrpnCC14 0 6 50 (initState 1)).emissions = [] ∧
      (nrpnCC14 0 38 70 (nrpnCC14 0 6 50 (initState 1))).buffers 0 0 = 101 ∧
      (nrpnCC14 0 38 70 (nrpnCC14 0 6 50 (initState 1))).emissions.length = 1) := by
  have hlt : st.nrpnVal % 2 ||| (v * 2) < 256 := or_lt_256 (by omega) (by omega)
  refine ⟨⟨?_, rfl, rfl⟩, ⟨rfl, ?_, rfl⟩, rfl, rfl, rfl, rfl⟩
  · simp [nrpnCC14, Nat.mod_eq_of_lt hlt]
  · by_cases h : 63 < v <;> simp [nrpnCC14, h, setSlot_same]

/-- C6 witness: `nrpn14_data_spec` instantiated at channel 0, value 50 from
the startup state. -/
theorem nrpn14_data_spec_witness :
    ((nrpnCC14 0 6 50 (initState 1)).nrpnVal =
        ((initState 1).nrpnVal &&& 1) ||| (50 * 2) ∧
      (nrpnCC14 0 6 50 (initState 1)).buffers = (initState 1).buffers ∧
      (nrpnCC14 0 6 50 (initState 1)).emissions = (initState 1).emissions) ∧
    ((nrpnCC14 0 38 50 (initState 1)).nrpnVal =
        (if 63 < 50 then (initState 1).nrpnVal ||| 1
          else (initState 1).nrpnVal &&& 254) ∧
      (nrpnCC14 0 38 50 (initState 1)).buffers (initState 1).bufferIndex
          (initState 1).slot = (nrpnCC14 0 38 50 (initState 1)).nrpnVal ∧
      (nrpnCC14 0 38 50 (initState 1)).emissions =
        (initState 1).emissions ++
          [((initState 1).univ,
            (nrpnCC14 0 38 50 (initState 1)).buffers (initState 1).bufferIndex)]) ∧
    ((nrpnCC14 0 6 50 (initState 1)).nrpnVal = 100 ∧
      (nrpnCC14 0 6 50 (initState 1)).emissions = [] ∧
      (nrpnCC14 0 38 70 (nrpnCC14 0 6 50 (initState 1))).buffers 0 0 = 101 ∧
      (nrpnCC14 0 38 70 (nrpnCC14 0 6 50 (initState 1))).emissions.length = 1) :=
  nrpn14_data_spec (initState 1) 0 50 (by decide)

/-- C7: in both NRPN modes, INC (controller 96) increments the pending value
saturating at 255 and DEC (controller 97) decrements it saturating at 0; on
an actual change the new value is written to the addressed slot and the frame
is emitted once, while INC at 255 and DEC at 0 write nothing and emit nothing;
in NRPN7, DEC recomputes the slot from the current parameter before
mutating. -/
theorem nrpn_inc_dec_spec (st : State) (c v : Nat) :
    (st.nrpnVal < 255 →
      (nrpnCC7 c 96 v st).nrpnVal = st.nrpnVal + 1 ∧
      (nrpnCC7 c 96 v st).buffers st.bufferIndex st.slot = st.nrpnVal + 1 ∧
      (nrpnCC7 c 96 v st).emissions.length = st.emissions.length + 1 ∧
      (nrpnCC14 c 96 v st).nrpnVal = st.nrpnVal + 1 ∧
      (nrpnCC14 c 96 v st).buffers st.bufferIndex st.slot = st.nrpnVal + 1 ∧
      (nrpnCC14 c 96 v st).emissions.length = st.emissions.length + 1) ∧
    (st.nrpnVal = 255 → nrpnCC7 c 96 v st = st ∧ nrpnCC14 c 96 v st = st) ∧
    (0 < st.nrpnVal →
      (nrpnCC7 c 97 v st).nrpnVal = st.nrpnVal - 1 ∧
      (nrpnCC7 c 97 v st).slot = st.nrpnParam % 512 ∧
      (nrpnCC7 c 97 v st).buffers st.bufferIndex (st.nrpnParam % 512) =
        st.nrpnVal - 1 ∧
      (nrpnCC7 c 97 v st).emissions.length = st.emissions.length + 1 ∧
      (nrpnCC14 c 97 v st).nrpnVal = st.nrpnVal - 1 ∧
      (nrpnCC14 c 97 v st).buffers st.bufferIndex st.slot = st.nrpnVal - 1 ∧
      (nrpnCC14 c 97 v st).emissions.length = st.emissions.length + 1) ∧
    (st.nrpnVal = 0 →
      (nrpnCC7 c 97 v st).buffers = st.buffers ∧
      (nrpnCC7 c 97 v st).emissions = st.emissions ∧
      (nrpnCC7 c 97 v st).nrpnVal = st.nrpnVal ∧
      (nrpnCC7 c 97 v st).slot = st.nrpnParam % 512 ∧
      nrpnCC14 c 97 v st = st) := by
  refine ⟨fun h => ?_, fun h => ?_, fun h => ?_, fun h => ?_⟩
  · simp [nrpnCC7, nrpnCC14, h, setSlot_same]
  · constructor <;> simp [nrpnCC7, nrpnCC14, h]
  · have h' : st.nrpnVal ≠ 0 := by omega
    simp [nrpnCC7, nrpnCC14, h, h', setSlot_same]
  · simp [nrpnCC7, nrpnCC14, h]

/-- C7 witness: `nrpn_inc_dec_spec` at the startup state (pending value 0):
the DEC-at-zero conjunct applies and the INC conjunct applies. -/
theorem nrpn_inc_dec_spec_witness :
    ((nrpnCC7 0 96 0 (initState 1)).nrpnVal = (initState 1).nrpnVal + 1 ∧
      (nrpnCC7 0 96 0 (initState 1)).buffers (initState 1).bufferIndex
          (initState 1).slot = (initState 1).nrpnVal + 1 ∧
      (nrpnCC7 0 96 0 (initState 1)).emissions.length =
        (initState 1).emissions.length + 1 ∧
      (nrpnCC14 0 96 0 (initState 1)).nrpnVal = (initState 1).nrpnVal + 1 ∧
      (nrpnCC14 0 96 0 (initState 1)).buffers (initState 1).bufferIndex
          (initState 1).slot = (initState 1).nrpnVal + 1 ∧
      (nrpnCC14 0 96 0 (initState 1)).emissions.length =
        (initState 1).emissions.length + 1) ∧
    ((nrpnCC7 0 97 0 (initState 1)).buffers = (initState 1).buffers ∧
      (nrpnCC7 0 97 0 (initState 1)).emissions = (initState 1).emissions ∧
      (nrpnCC7 0 97 0 (initState 1)).nrpnVal = (initState 1).nrpnVal ∧
      (nrpnCC7 0 97 0 (initState 1)).slot = (initState 1).nrpnParam % 512 ∧
      nrpnCC14 0 97 0 (initState 1) = initState 1) :=
  ⟨(nrpn_inc_dec_spec (initState 1) 0 0).1 (by decide),
    (nrpn_inc_dec_spec (initState 1) 0 0).2.2.2 rfl⟩

lemma nrpn_lsb_param (p v : Nat) (hv : v < 128) :
    ((p &&& 0x3f80) ||| v) % 65536 = (p &&& 0x3f80) ||| v ∧
      (p &&& 0x3f80) ||| v ≤ 16383 := by
  have h1 : p &&& 0x3f80 < 16384 := Nat.lt_of_le_of_lt Nat.and_le_right (by norm_num)
  have h2 : (p &&& 0x3f80) ||| v < 16384 := or_lt_16384 h1 (by omega)
  exact ⟨Nat.mod_eq_of_lt (by omega), by omega⟩

lemma nrpn_msb_param (p v : Nat) (hv : v < 128) :
    ((p &&& 0x7f) ||| (v <<< 7)) % 65536 = (p &&& 0x7f) ||| (v <<< 7) ∧
      (p &&& 0x7f) ||| (v <<< 7) ≤ 16383 := by
  have h1 : p &&& 0x7f < 16384 := Nat.lt_of_le_of_lt Nat.and_le_right (by norm_num)
  have h2 : v <<< 7 < 16384 := by
    rw [Nat.shiftLeft_eq]
    norm_num
    omega
  have h3 : (p &&& 0x7f) ||| (v <<< 7) < 16384 := or_lt_16384 h1 h2
  exact ⟨Nat.mod_eq_of_lt (by omega), by omega⟩

lemma goodAddr_mk (st : State) (p ub : Nat) (hp : p ≤ 16383) :
    goodAddr { st with nrpnParam := p, slot := p % 512, bufferIndex := p / 512,
                       univ := (p / 512 + ub) % 256 } ub := by
  refine ⟨hp, rfl, rfl, rfl, fun h => ?_, ?_, ?_⟩
  · exact Nat.mod_eq_of_lt h
  · show p / 512 < 32
    omega
  · show p % 512 < 512
    omega

lemma nrpn7_non_addr (st : State) (c k v : Nat) (h98 : k ≠ 98) (h99 : k ≠ 99) :
    (nrpnCC7 c k v st).nrpnParam = st.nrpnParam ∧
    (nrpnCC7 c k v st).bufferIndex = st.bufferIndex ∧
    (nrpnCC7 c k v st).univ = st.univ ∧
    (nrpnCC7 c k v st).universeBase = st.universeBase ∧
    ((nrpnCC7 c k v st).slot = st.slot ∨
      (nrpnCC7 c k v st).slot = st.nrpnParam % 512) := by
  by_cases h6 : k = 6
  · simp [nrpnCC7, h98, h99, h6]
  · by_cases h96 : k = 96
    · by_cases hn : st.nrpnVal < 255 <;> simp [nrpnCC7, h98, h99, h6, h96, hn]
    · by_cases h97 : k = 97
      · by_cases hn : 0 < st.nrpnVal <;> simp [nrpnCC7, h98, h99, h6, h96, h97, hn]
      · simp [nrpnCC7, h98, h99, h6, h96, h97]

lemma nrpn14_non_addr (st : State) (c k v : Nat) (h98 : k ≠ 98) (h99 : k ≠ 99) :
    (nrpnCC14 c k v st).nrpnParam = st.nrpnParam ∧
    (nrpnCC14 c k v st).bufferIndex = st.bufferIndex ∧
    (nrpnCC14 c k v st).univ = st.univ ∧
    (nrpnCC14 c k v st).universeBase = st.universeBase ∧
    (nrpnCC14 c k v st).slot = st.slot := by
  by_cases h6 : k = 6
  · simp [nrpnCC14, h98, h99, h6]
  · by_cases h38 : k = 38
    · by_cases hval : 63 < v <;> simp [nrpnCC14, h98, h99, h6, h38, hval]
    · by_cases h96 : k = 96
      · by_cases hn : st.nrpnVal < 255 <;>
          simp [nrpnCC14, h98, h99, h6, h38, h96, hn]
      · by_cases h97 : k = 97
        · by_cases hn : 0 < st.nrpnVal <;>
            simp [nrpnCC14, h98, h99, h6, h38, h96, h97, hn]
        · simp [nrpnCC14, h98, h99, h6, h38, h96, h97]

/-- C1: in NRPN7 and NRPN14 modes, NRPN_LSB (controller 98) replaces the low
7 bits of the session parameter and NRPN_MSB (controller 99) replaces bits
7..13 with the value shifted left by 7; after either message the buffer index
is parameter / 512, the slot parameter mod 512 and the universe buffer index
plus universe base, with the parameter at most 16383, so the computed buffer
index is below 32 and the slot below 512; every NRPN message preserves this
well-formedness, so all frame accesses stay in bounds with no defensive
check, and parameter 16383 resolves exactly to buffer index 31, slot 511. -/
theorem nrpn_address_spec (st : State) (c k v : Nat) (hv : v < 128) :
    ((nrpnCC7 c 98 v st).nrpnParam = (st.nrpnParam &&& 0x3f80) ||| v ∧
      goodAddr (nrpnCC7 c 98 v st) st.universeBase) ∧
    ((nrpnCC7 c 99 v st).nrpnParam = (st.nrpnParam &&& 0x7f) ||| (v <<< 7) ∧
      goodAddr (nrpnCC7 c 99 v st) st.universeBase) ∧
    nrpnCC14 c 98 v st = nrpnCC7 c 98 v st ∧
    nrpnCC14 c 99 v st = nrpnCC7 c 99 v st ∧
    (goodAddr st st.universeBase →
      goodAddr (nrpnCC7 c k v st) st.universeBase ∧
      goodAddr (nrpnCC14 c k v st) st.universeBase) ∧
    ((nrpnCC7 0 99 127 (nrpnCC7 0 98 127 (initState 1))).nrpnParam = 16383 ∧
      (nrpnCC7 0 99 127 (nrpnCC7 0 98 127 (initState 1))).bufferIndex = 31 ∧
      (nrpnCC7 0 99 127 (nrpnCC7 0 98 127 (initState 1))).slot = 511) := by
  obtain ⟨hm1, hle1⟩ := nrpn_lsb_param st.nrpnParam v hv
  obtain ⟨hm2, hle2⟩ := nrpn_msb_param st.nrpnParam v hv
  have hlsb : (nrpnCC7 c 98 v st).nrpnParam = (st.nrpnParam &&& 0x3f80) ||| v := by
    simp [nrpnCC7, hm1]
  have hmsb : (nrpnCC7 c 99 v st).nrpnParam = (st.nrpnParam &&& 0x7f) ||| (v <<< 7) := by
    simp [nrpnCC7, hm2]
  have glsb : goodAddr (nrpnCC7 c 98 v st) st.universeBase := by
    have := goodAddr_mk st (((st.nrpnParam &&& 0x3f80) ||| v) % 65536)
      st.universeBase (by omega)
    simpa [nrpnCC7, hm1] using this
  have gmsb : goodAddr (nrpnCC7 c 99 v st) st.universeBase := by
    have := goodAddr_mk st (((st.nrpnParam &&& 0x7f) ||| (v <<< 7)) % 65536)
      st.universeBase (by omega)
    simpa [nrpnCC7, hm2] using this
  refine ⟨⟨hlsb, glsb⟩, ⟨hmsb, gmsb⟩, rfl, rfl, fun hga => ?_, rfl, rfl, rfl⟩
  by_cases h98 : k = 98
  · subst h98
    constructor
    · exact glsb
    · exact (by rfl : nrpnCC14 c 98 v st = nrpnCC7 c 98 v st) ▸ glsb
  · by_cases h99 : k = 99
    · subst h99
      constructor
      · exact gmsb
      · exact (by rfl : nrpnCC14 c 99 v st = nrpnCC7 c 99 v st) ▸ gmsb
    · obtain ⟨p7, b7, u7, ub7, s7⟩ := nrpn7_non_addr st c k v h98 h99
      obtain ⟨p14, b14, u14, ub14, s14⟩ := nrpn14_non_addr st c k v h98 h99
      obtain ⟨g1, g2, g3, g4, g5, g6, g7⟩ := hga
      constructor
      · refine ⟨by omega, ?_, by omega, by omega, fun h => ?_, by omega, ?_⟩
        · rcases s7 with h | h <;> omega
        · have := g5 (by omega)
          omega
        · rcases s7 with h | h <;> omega
      · refine ⟨by omega, by omega, by omega, by omega, fun h => ?_, by omega, by omega⟩
        have := g5 (by omega)
        omega

/-- C1 witness: `nrpn_address_spec` instantiated at the startup state with
channel 0, controller 6, value 127; the well-formedness of the startup state
is discharged by evaluation. -/
theorem nrpn_address_spec_witness :
    goodAddr (nrpnCC7 0 6 127 (initState 1)) (initState 1).universeBase ∧
    goodAddr (nrpnCC14 0 6 127 (initState 1)) (initState 1).universeBase ∧
    (nrpnCC7 0 99 127 (nrpnCC7 0 98 127 (initState 1))).nrpnParam = 16383 ∧
    (nrpnCC7 0 99 127 (nrpnCC7 0 98 127 (initState 1))).bufferIndex = 31 ∧
    (nrpnCC7 0 99 127 (nrpnCC7 0 98 127 (initState 1))).slot = 511 := by
  have h := nrpn_address_spec (initState 1) 0 6 127 (by decide)
  have hga : goodAddr (initState 1) (initState 1).universeBase := by
    refine ⟨by decide, rfl, rfl, rfl, fun h => by decide, by decide, by decide⟩
  exact ⟨(h.2.2.2.2.1 hga).1, (h.2.2.2.2.1 hga).2,
    h.2.2.2.2.2.1, h.2.2.2.2.2.2.1, h.2.2.2.2.2.2.2⟩

/-- C8: evaluation of the startup loop.  The loop body never reads its loop
counter: it blackouts and transmits `g_dmxBuffer[g_bufferIndex]` (index 0)
to `g_universe` (the universe base) on every iteration, so with universe base
1 all 32 startup transmissions go to universe 1 carrying the frame at buffer
index 0, instead of one transmission per universe 1..32.  This exhibits the
divergence from the claimed per-universe blackout broadcast. -/
theorem startup_transmissions :
    (startup 1).emissions.length = 32 ∧
    (startup 1).emissions.map Prod.fst = List.replicate 32 1 ∧
    (startup 1).univ = 1 ∧
    (startup 1).bufferIndex = 0 := by
  refine ⟨rfl, rfl, rfl, rfl⟩

/-- C9: a Control-Change or Note-On event on a channel whose bit is clear in
the channel enable mask is ignored in every mode (the state, frames and
emission log are all unchanged), the mask produced by excluding channel `n`
(1..16) on the command line has bit `n-1` clear, and events on an enabled
channel are dispatched to the resolver selected by the configured mode (the
CC7 resolver for Note-On). -/
theorem channel_mask_spec :
    (∀ (cfg : Config) (st : State) (status d1 d2 n : Nat),
      1 ≤ n → n ≤ 16 → status &&& 0x0f = n - 1 →
      (status &&& 0xf0 = 0xb0 ∨ status &&& 0xf0 = 0x90) →
      Nat.testBit cfg.midiChannels (n - 1) = false →
      processEvent cfg status d1 d2 st = st) ∧
    (∀ m n : Nat, 1 ≤ n → n ≤ 16 →
      Nat.testBit (excludeChannel m n) (n - 1) = false) ∧
    (∀ (cfg : Config) (st : State) (status d1 d2 : Nat),
      cfg.enableCC = true → status &&& 0xf0 = 0xb0 →
      Nat.testBit cfg.midiChannels (status &&& 0x0f) = true →
      processEvent cfg status d1 d2 st =
        modeResolver cfg.mode (status &&& 0x0f) d1 d2 st) ∧
    (∀ (cfg : Config) (st : State) (status d1 d2 : Nat),
      cfg.enableNote = true → status &&& 0xf0 = 0x90 →
      Nat.testBit cfg.midiChannels (status &&& 0x0f) = true →
      processEvent cfg status d1 d2 st = cc7 (status &&& 0x0f) d1 d2 st) := by
  refine ⟨?_, ?_, ?_, ?_⟩
  · intro cfg st status d1 d2 n h1 h16 hch hcmd hbit
    have hz : (1 <<< (status &&& 0x0f)) &&& cfg.midiChannels = 0 := by
      rw [hch]
      exact (shiftLeft_one_and_eq_zero_iff cfg.midiChannels (n - 1)).2 hbit
    rcases hcmd with hcmd | hcmd
    · by_cases hcc : cfg.enableCC <;> simp [processEvent, hcmd, hcc, hz]
    · have hne : ¬ (status &&& 0xf0 = 0xb0) := by omega
      by_cases hnote : cfg.enableNote <;>
        simp [processEvent, hcmd, hne, hnote, hz]
  · intro m n h1 h16
    have ht : Nat.testBit 65535 (n - 1) = true := by
      interval_cases n <;> decide
    simp [excludeChannel, Nat.testBit_and, Nat.testBit_xor, Nat.one_shiftLeft,
      Nat.testBit_two_pow_self, ht]
  · intro cfg st status d1 d2 hcc hcmd hbit
    have hnz : ¬ ((1 <<< (status &&& 0x0f)) &&& cfg.midiChannels = 0) := by
      intro h
      rw [(shiftLeft_one_and_eq_zero_iff cfg.midiChannels (status &&& 0x0f)).1 h]
        at hbit
      exact Bool.false_ne_true hbit
    obtain ⟨ecc, enote, mode, mask⟩ := cfg
    replace hcc : ecc = true := hcc
    replace hnz : ¬ ((1 <<< (status &&& 0x0f)) &&& mask = 0) := hnz
    subst hcc
    cases mode <;> simp [processEvent, modeResolver, hcmd, hnz]
  · intro cfg st status d1 d2 hnote hcmd hbit
    have hnz : ¬ ((1 <<< (status &&& 0x0f)) &&& cfg.midiChannels = 0) := by
      intro h
      rw [(shiftLeft_one_and_eq_zero_iff cfg.midiChannels (status &&& 0x0f)).1 h]
        at hbit
      exact Bool.false_ne_true hbit
    have hne : ¬ (status &&& 0xf0 = 0xb0) := by omega
    simp [processEvent, hcmd, hne, hnote, hnz]

/-- C9 witness: excluding channel 5 from the default mask clears bit 4; a
Control-Change on status 0xb4 (channel nibble 4) under that mask leaves the
startup state unchanged in NRPN7 mode; with the full mask, a Control-Change
on status 0xb2 is dispatched to the NRPN7 resolver and a Note-On on status
0x92 to the CC7 resolver. -/
theorem channel_mask_spec_witness :
    processEvent ⟨true, false, MidiMode.nrpn7, excludeChannel 0xffff 5⟩
        0xb4 6 50 (initState 1) = initState 1 ∧
    Nat.testBit (excludeChannel 0xffff 5) 4 = false ∧
    processEvent ⟨true, false, MidiMode.nrpn7, 0xffff⟩ 0xb2 6 50 (initState 1) =
      modeResolver MidiMode.nrpn7 (0xb2 &&& 0x0f) 6 50 (initState 1) ∧
    processEvent ⟨true, true, MidiMode.cc14, 0xffff⟩ 0x92 60 100 (initState 1) =
      cc7 (0x92 &&& 0x0f) 60 100 (initState 1) := by
  have h := channel_mask_spec
  refine ⟨h.1 ⟨true, false, MidiMode.nrpn7, excludeChannel 0xffff 5⟩
      (initState 1) 0xb4 6 50 5 (by decide) (by decide) (by decide)
      (Or.inl (by decide)) (by decide),
    h.2.1 0xffff 5 (by decide) (by decide),
    h.2.2.1 ⟨true, false, MidiMode.nrpn7, 0xffff⟩ (initState 1) 0xb2 6 50
      rfl (by decide) (by decide),
    h.2.2.2 ⟨true, true, MidiMode.cc14, 0xffff⟩ (initState 1) 0x92 60 100
      rfl (by decide) (by decide)⟩

/-- C10: the invariant "slot = parameter mod 512, buffer index = parameter
div 512, universe = buffer index + universe base (as a byte)" holds in the
initial state, where the parameter is 0, the slot and buffer index are 0 and
the universe is the universe base, and it is preserved by every message in
both NRPN modes; under the invariant, the extra slot recomputation in NRPN7's
DEC handler never changes the slot. -/
theorem nrpn_invariant_spec :
    (∀ ub, ub < 256 →
      nrpnInv (initState ub) ∧ (initState ub).nrpnParam = 0 ∧
      (initState ub).slot = 0 ∧ (initState ub).bufferIndex = 0 ∧
      (initState ub).univ = ub) ∧
    (∀ (st : State) (c k v : Nat), nrpnInv st → nrpnInv (nrpnCC7 c k v st)) ∧
    (∀ (st : State) (c k v : Nat), nrpnInv st → nrpnInv (nrpnCC14 c k v st)) ∧
    (∀ (st : State) (c v : Nat), nrpnInv st → (nrpnCC7 c 97 v st).slot = st.slot) := by
  have haddr : ∀ (st : State) (c v : Nat) (k : Nat), k = 98 ∨ k = 99 →
      nrpnInv (nrpnCC7 c k v st) ∧ nrpnInv (nrpnCC14 c k v st) := by
    intro st c v k hk
    rcases hk with rfl | rfl <;>
      exact ⟨⟨rfl, rfl, rfl⟩, ⟨rfl, rfl, rfl⟩⟩
  refine ⟨?_, ?_, ?_, ?_⟩
  · intro ub hub
    refine ⟨⟨?_, ?_, ?_⟩, rfl, rfl, rfl, rfl⟩
    · show (0 : Nat) = 0 % 512
      norm_num
    · show (0 : Nat) = 0 / 512
      norm_num
    · show ub = (0 + ub) % 256
      omega
  · intro st c k v hinv
    by_cases h98 : k = 98
    · exact (haddr st c v k (Or.inl h98)).1
    · by_cases h99 : k = 99
      · exact (haddr st c v k (Or.inr h99)).1
      · obtain ⟨p7, b7, u7, ub7, s7⟩ := nrpn7_non_addr st c k v h98 h99
        obtain ⟨g1, g2, g3⟩ := hinv
        refine ⟨?_, by omega, by omega⟩
        rcases s7 with h | h <;> omega
  · intro st c k v hinv
    by_cases h98 : k = 98
    · exact (haddr st c v k (Or.inl h98)).2
    · by_cases h99 : k = 99
      · exact (haddr st c v k (Or.inr h99)).2
      · obtain ⟨p14, b14, u14, ub14, s14⟩ := nrpn14_non_addr st c k v h98 h99
        obtain ⟨g1, g2, g3⟩ := hinv
        exact ⟨by omega, by omega, by omega⟩
  · intro st c v hinv
    obtain ⟨g1, g2, g3⟩ := hinv
    by_cases hn : 0 < st.nrpnVal <;> simp [nrpnCC7, hn] <;> omega

/-- C10 witness: `nrpn_invariant_spec` instantiated at universe base 1 and at
a DATA_MSB message from the startup state, whose invariant is discharged by
evaluation. -/
theorem nrpn_invariant_spec_witness :
    nrpnInv (initState 1) ∧
    nrpnInv (nrpnCC7 0 6 50 (initState 1)) ∧
    nrpnInv (nrpnCC14 0 6 50 (initState 1)) ∧
    (nrpnCC7 0 97 0 (initState 1)).slot = (initState 1).slot := by
  have h := nrpn_invariant_spec
  have h0 : nrpnInv (initState 1) := (h.1 1 (by decide)).1
  exact ⟨h0, h.2.1 (initState 1) 0 6 50 h0, h.2.2.1 (initState 1) 0 6 50 h0,
    h.2.2.2 (initState 1) 0 0 h0⟩

end Midiola
